import Mathlib

/-
Verification of the GridTrading Pro core against its specification.

The Python source is shallowly embedded: floats are modelled as rationals,
Python dicts keyed by price as association lists with insert-or-replace
semantics, and the asynchronous methods as pure state-transition functions
parametrised by the responses of the external collaborators (exchange,
persistence, notifier).
-/

namespace GridTrading

/-- Order side, the values of the source's side field, which holds the
string buy or sell. -/
inductive Side where
  | buy : Side
  | sell : Side
deriving DecidableEq, Repr

/-- Severity levels of a risk alert (risk_manager.py, RiskAlert.severity). -/
inductive Severity where
  | low : Severity
  | medium : Severity
  | high : Severity
  | critical : Severity
deriving DecidableEq, Repr

/-- Alert types produced by the risk manager (the alert_type strings of
risk_manager.py, one constructor per string constant). -/
inductive AlertType where
  | positionLimitExceeded : AlertType
  | positionBelowMinimum : AlertType
  | maxDrawdownExceeded : AlertType
  | dailyLossLimitExceeded : AlertType
  | extremeDrawdown : AlertType
  | extremeDailyLoss : AlertType
  | extremePositionRatio : AlertType
deriving DecidableEq, Repr

/-- Python round(x, 4): round to the nearest multiple of 1/10000.
Mathlib's round is round-half-up; it agrees with Python's rounding at every
non-tie input, and no claim below hinges on an exact half-way tie. -/
def roundTo4 (x : ℚ) : ℚ := ((round (x * 10000) : ℤ) : ℚ) / 10000

/-- One entry of the grid_levels dict of grid_engine.py: side, level index,
occupancy and the timestamp of the last failed placement attempt. -/
structure LevelInfo where
  side : Side
  level : ℤ
  occupied : Bool
  last_attempt : ℚ
deriving DecidableEq, Repr

/-- Insert-or-replace on an association list: the embedding of assigning
d[k] = v on a Python dict (an existing key keeps its position, a new key
is appended). -/
def insertOrReplace {α β : Type} [DecidableEq α] :
    List (α × β) → α → β → List (α × β)
  | [], k, v => [(k, v)]
  | (k', v') :: t, k, v =>
      if k' = k then (k, v) :: t else (k', v') :: insertOrReplace t k v

/-- The level indices generated by _initialize_grid_levels: range(-5, 6)
with 0 skipped, in iteration order. -/
def gridIndices : List ℤ := [-5, -4, -3, -2, -1, 1, 2, 3, 4, 5]

/-- Price of grid level i: round(base_price * (1 + i * grid_size/100), 4)
(grid_engine.py, _initialize_grid_levels). -/
def levelPrice (base g : ℚ) (i : ℤ) : ℚ :=
  roundTo4 (base * (1 + (i : ℚ) * (g / 100)))

/-- The fresh LevelInfo created for index i: buy below the base price,
sell above, unoccupied, last_attempt 0. -/
def newLevelInfo (i : ℤ) : LevelInfo :=
  { side := if i < 0 then Side.buy else Side.sell
    level := i
    occupied := false
    last_attempt := 0 }

/-- _initialize_grid_levels on an empty table: for i in range(-5,6), i ≠ 0,
set grid_levels[round(base*(1+i*g/100),4)] = the fresh level entry. -/
def initializeGridLevels (base g : ℚ) : List (ℚ × LevelInfo) :=
  gridIndices.foldl
    (fun acc i => insertOrReplace acc (levelPrice base g i) (newLevelInfo i))
    []

/-- safe_divide of helpers.py: return default when the denominator is zero,
the quotient otherwise. -/
def safe_divide (numerator denominator default : ℚ) : ℚ :=
  if denominator = 0 then default else numerator / denominator

/-- Risk configuration fields consumed by the risk manager
(settings.py, RiskSettings). -/
structure RiskSettings where
  max_drawdown : ℚ
  daily_loss_limit : ℚ
  max_position_ratio : ℚ
  min_position_ratio : ℚ
deriving DecidableEq, Repr

/-- The RiskSettings defaults of settings.py: max_drawdown -0.15,
daily_loss_limit -0.05, max_position_ratio 0.9, min_position_ratio 0.1. -/
def defaultRiskSettings : RiskSettings :=
  { max_drawdown := -3/20
    daily_loss_limit := -1/20
    max_position_ratio := 9/10
    min_position_ratio := 1/10 }

/-- A risk alert as built by risk_manager.py (the message string, pure
logging text, is not modelled). -/
structure RiskAlert where
  alert_type : AlertType
  severity : Severity
  current_value : ℚ
  threshold : ℚ
  timestamp : ℚ
  action_required : Bool
deriving DecidableEq, Repr

/-- The mutable fields of RiskManager relevant to risk evaluation.
trigger_count is ghost instrumentation: it counts the invocations of
_trigger_emergency_stop (the cancel-all plus critical-notification action),
which the source performs via external collaborators. -/
structure RiskState where
  emergency_stop_triggered : Bool
  peak_portfolio_value : ℚ
  current_drawdown : ℚ
  daily_start_value : ℚ
  daily_pnl : ℚ
  last_daily_reset : ℚ
  current_position_ratio : ℚ
  trigger_count : ℕ
deriving DecidableEq, Repr

/-- _update_portfolio_metrics: raise the peak to the new account value if
exceeded, recompute drawdown against the (possibly new) peak, recompute the
daily PnL against the daily baseline, then reset the daily baseline if more
than 24h have elapsed. -/
def updatePortfolioMetrics (now value : ℚ) (s : RiskState) : RiskState :=
  let peak := if value > s.peak_portfolio_value then value
    else s.peak_portfolio_value
  let dd := if peak > 0 then (value - peak) / peak else s.current_drawdown
  let pnl := if s.daily_start_value > 0 then
      (value - s.daily_start_value) / s.daily_start_value
    else s.daily_pnl
  if now - s.last_daily_reset > 86400 then
    { s with peak_portfolio_value := peak, current_drawdown := dd,
             daily_start_value := value, daily_pnl := 0,
             last_daily_reset := now }
  else
    { s with peak_portfolio_value := peak, current_drawdown := dd,
             daily_pnl := pnl }

/-- The balance/position snapshot read by _check_position_limits, one
constructor per account mode. Futures: the position's absolute notional and
the total USDT balance. Spot: the total base-asset balance, the total USDT
balance and the ticker price. -/
inductive PositionSnapshot where
  | futures (notional usdtTotal : ℚ) : PositionSnapshot
  | spot (baseTotal usdtTotal currentPrice : ℚ) : PositionSnapshot
deriving DecidableEq, Repr

/-- The position value computed by _check_position_limits per mode. -/
def positionValue : PositionSnapshot → ℚ
  | .futures n _ => |n|
  | .spot b _ p => b * p

/-- The total balance computed by _check_position_limits per mode. -/
def totalBalance : PositionSnapshot → ℚ
  | .futures _ t => t
  | .spot b u p => b * p + u

/-- _check_position_limits: store the safe-divide position ratio, then alert
if it exceeds the maximum (high) or falls below the minimum (medium). -/
def checkPositionLimits (cfg : RiskSettings) (now : ℚ)
    (snap : PositionSnapshot) (s : RiskState) : RiskState × List RiskAlert :=
  let ratio := safe_divide (positionValue snap) (totalBalance snap) 0
  let s1 := { s with current_position_ratio := ratio }
  let a1 : List RiskAlert :=
    if ratio > cfg.max_position_ratio then
      [{ alert_type := AlertType.positionLimitExceeded, severity := .high,
         current_value := ratio, threshold := cfg.max_position_ratio,
         timestamp := now, action_required := true }]
    else []
  let a2 : List RiskAlert :=
    if ratio < cfg.min_position_ratio then
      [{ alert_type := AlertType.positionBelowMinimum, severity := .medium,
         current_value := ratio, threshold := cfg.min_position_ratio,
         timestamp := now, action_required := false }]
    else []
  (s1, a1 ++ a2)

/-- _check_drawdown_limits: alert when the drawdown breaches the configured
maximum, critical when it breaches 1.5 times the maximum. -/
def checkDrawdownLimits (cfg : RiskSettings) (now : ℚ) (s : RiskState) :
    List RiskAlert :=
  if s.current_drawdown < cfg.max_drawdown then
    [{ alert_type := AlertType.maxDrawdownExceeded,
       severity := if s.current_drawdown < cfg.max_drawdown * (3/2) then
           Severity.critical else Severity.high,
       current_value := s.current_drawdown, threshold := cfg.max_drawdown,
       timestamp := now, action_required := true }]
  else []

/-- _check_daily_limits: alert when the daily PnL breaches the configured
loss limit, critical when it breaches 1.5 times the limit. -/
def checkDailyLimits (cfg : RiskSettings) (now : ℚ) (s : RiskState) :
    List RiskAlert :=
  if s.daily_pnl < cfg.daily_loss_limit then
    [{ alert_type := AlertType.dailyLossLimitExceeded,
       severity := if s.daily_pnl < cfg.daily_loss_limit * (3/2) then
           Severity.critical else Severity.high,
       current_value := s.daily_pnl, threshold := cfg.daily_loss_limit,
       timestamp := now, action_required := true }]
  else []

/-- The emergency condition list of _check_emergency_conditions, in source
order, evaluated once against the state at the start of the check. -/
def emergencyConditions (cfg : RiskSettings) (s : RiskState) :
    List (Bool × AlertType) :=
  [(decide (s.current_drawdown < cfg.max_drawdown * 2),
      AlertType.extremeDrawdown),
   (decide (s.daily_pnl < cfg.daily_loss_limit * 2),
      AlertType.extremeDailyLoss),
   (decide (s.current_position_ratio > 95/100),
      AlertType.extremePositionRatio)]

/-- _trigger_emergency_stop: set the sticky flag; cancelling all orders and
sending the critical notification are delegated to collaborators and counted
by the ghost trigger_count. -/
def triggerEmergencyStop (s : RiskState) : RiskState :=
  { s with emergency_stop_triggered := true,
           trigger_count := s.trigger_count + 1 }

/-- The body of the _check_emergency_conditions loop for one condition: a
true condition appends a critical alert and, only when the stop flag is not
already set, invokes the trigger. -/
def emergencyStep (now : ℚ) (acc : RiskState × List RiskAlert)
    (c : Bool × AlertType) : RiskState × List RiskAlert :=
  if c.1 then
    let s1 := acc.1
    let s2 := if s1.emergency_stop_triggered then s1
      else triggerEmergencyStop s1
    (s2, acc.2 ++ [{ alert_type := c.2, severity := Severity.critical,
                     current_value := 0, threshold := 0,
                     timestamp := now, action_required := true }])
  else acc

/-- _check_emergency_conditions: run the loop body over the condition list
evaluated against the incoming state. -/
def checkEmergencyConditions (cfg : RiskSettings) (now : ℚ) (s : RiskState) :
    RiskState × List RiskAlert :=
  (emergencyConditions cfg s).foldl (emergencyStep now) (s, [])

/-- reset_emergency_stop: the explicit operator reset. -/
def resetEmergencyStop (s : RiskState) : RiskState :=
  { s with emergency_stop_triggered := false }

/-- is_emergency_stop_active. -/
def isEmergencyStopActive (s : RiskState) : Bool :=
  s.emergency_stop_triggered

/-- The external inputs consumed by one risk-evaluation cycle: the clock,
the account value and the balance/position snapshot. -/
structure RiskCycleInput where
  now : ℚ
  accountValue : ℚ
  snapshot : PositionSnapshot
deriving DecidableEq, Repr

/-- The body of check_all_risks once the check interval has elapsed: update
the portfolio metrics, then run the position, drawdown, daily and emergency
checks in source order, collecting their alerts. -/
def checkAllRisks (cfg : RiskSettings) (inp : RiskCycleInput)
    (s : RiskState) : RiskState × List RiskAlert :=
  let s1 := updatePortfolioMetrics inp.now inp.accountValue s
  let p := checkPositionLimits cfg inp.now inp.snapshot s1
  let aDD := checkDrawdownLimits cfg inp.now p.1
  let aDay := checkDailyLimits cfg inp.now p.1
  let e := checkEmergencyConditions cfg inp.now p.1
  (e.1, p.2 ++ aDD ++ aDay ++ e.2)

/-- A sequence of risk-evaluation cycles, threading the risk state. -/
def runRiskCycles (cfg : RiskSettings) (inps : List RiskCycleInput)
    (s : RiskState) : RiskState :=
  inps.foldl (fun st i => (checkAllRisks cfg i st).1) s

/-- A sequence of portfolio-metric updates, threading the risk state. -/
def runPortfolioUpdates (updates : List (ℚ × ℚ)) (s : RiskState) : RiskState :=
  updates.foldl (fun st u => updatePortfolioMetrics u.1 u.2 st) s

/-- An exchange order handle as stored in active_orders (only the id field
is read back by the engine). -/
structure OrderRec where
  id : ℕ
deriving DecidableEq, Repr

/-- Order lifecycle status values returned by get_order_status. -/
inductive OrderLifecycle where
  | opened : OrderLifecycle
  | closed : OrderLifecycle
  | canceled : OrderLifecycle
deriving DecidableEq, Repr

/-- The get_order_status response fields read by the engine: status, the
order id, the order price and the filled amount. -/
structure OrderStatus where
  status : OrderLifecycle
  id : ℕ
  price : ℚ
  filled : ℚ
deriving DecidableEq, Repr

/-- A trade record as passed to data_manager.save_trade by
_handle_order_filled (the symbol and strategy tag, constants of the engine,
are not modelled). -/
structure TradeRec where
  timestamp : ℚ
  side : Side
  price : ℚ
  amount : ℚ
  total : ℚ
  profit : ℚ
  order_id : ℕ
  grid_level : ℤ
deriving DecidableEq, Repr

/-- The engine state mutated by the modelled GridEngine methods: the
GridState fields they read or write plus the trading-state dicts and
counters. trades is the ghost stream of records handed to save_trade. -/
structure EngineState where
  base_price : ℚ
  current_price : ℚ
  grid_size : ℚ
  last_adjustment_time : ℚ
  volatility : ℚ
  grid_levels : List (ℚ × LevelInfo)
  active_orders : List (ℚ × Option OrderRec)
  last_trade_time : ℚ
  last_trade_price : ℚ
  trade_count : ℕ
  total_profit : ℚ
  trades : List TradeRec
deriving DecidableEq, Repr

/-- Python dict key lookup on an association list. -/
def lookupKey {α β : Type} [DecidableEq α] : List (α × β) → α → Option β
  | [], _ => none
  | (k', v) :: t, k => if k' = k then some v else lookupKey t k

/-- Python dict key deletion on an association list. -/
def eraseKey {α β : Type} [DecidableEq α] : List (α × β) → α → List (α × β)
  | [], _ => []
  | (k', v) :: t, k => if k' = k then t else (k', v) :: eraseKey t k

/-- Set the occupied field of the entry at a key, a no-op when absent. -/
def setOccupied (l : List (ℚ × LevelInfo)) (k : ℚ) (b : Bool) :
    List (ℚ × LevelInfo) :=
  l.map fun p => if p.1 = k then (p.1, { p.2 with occupied := b }) else p

/-- Set the last_attempt field of the entry at a key, a no-op when absent. -/
def setLastAttempt (l : List (ℚ × LevelInfo)) (k : ℚ) (t : ℚ) :
    List (ℚ × LevelInfo) :=
  l.map fun p => if p.1 = k then (p.1, { p.2 with last_attempt := t }) else p

/-- _release_grid_level: mark the level unoccupied when present and drop its
active-order entry when present. -/
def releaseGridLevel (price_level : ℚ) (st : EngineState) : EngineState :=
  { st with grid_levels := setOccupied st.grid_levels price_level false,
            active_orders := eraseKey st.active_orders price_level }

/-- _handle_order_filled: read side and level from the grid-level entry
(an absent key raises KeyError, caught by the method's handler before any
mutation), bump the trade counters, add the sell profit
(fillPrice - basePrice) * filledAmount - buys add zero - record the trade
and release the level. -/
def handleOrderFilled (now : ℚ) (price_level : ℚ) (ord : OrderStatus)
    (st : EngineState) : EngineState :=
  match lookupKey st.grid_levels price_level with
  | none => st
  | some info =>
      let profit := if info.side = Side.sell then
          (ord.price - st.base_price) * ord.filled
        else 0
      let rec1 : TradeRec :=
        { timestamp := now
          side := info.side
          price := ord.price
          amount := ord.filled
          total := ord.price * ord.filled
          profit := profit
          order_id := ord.id
          grid_level := info.level }
      let st1 := { st with
        trade_count := st.trade_count + 1
        last_trade_time := now
        last_trade_price := ord.price
        total_profit := st.total_profit + profit
        trades := st.trades ++ [rec1] }
      releaseGridLevel price_level st1

/-- The per-level decision of the _check_grid_signals loop. -/
inductive LevelAction where
  | skipOccupied : LevelAction
  | skipCooldown : LevelAction
  | place (side : Side) : LevelAction
  | skipGuard : LevelAction
deriving DecidableEq, Repr

/-- The failed_order_cooldown constant of the engine: 300 seconds. -/
def failedOrderCooldown : ℚ := 300

/-- The branch structure of the _check_grid_signals loop body for one
level: skip occupied levels, skip levels still in the failure cooldown,
then apply the directional guard - a buy only below currentPrice*0.999, a
sell only above currentPrice*1.001. -/
def gridSignalDecision (current_price now price_level : ℚ)
    (info : LevelInfo) : LevelAction :=
  if info.occupied then LevelAction.skipOccupied
  else if now - info.last_attempt < failedOrderCooldown then
    LevelAction.skipCooldown
  else match info.side with
    | Side.buy =>
        if price_level < current_price * (999/1000) then
          LevelAction.place Side.buy
        else LevelAction.skipGuard
    | Side.sell =>
        if price_level > current_price * (1001/1000) then
          LevelAction.place Side.sell
        else LevelAction.skipGuard

/-- A call to exchange.create_limit_order recorded during a tick. -/
structure GridOrderCall where
  price : ℚ
  side : Side
  amount : ℚ
deriving DecidableEq, Repr

/-- The exchange responses a tick depends on: the amount resolved by
_calculate_order_amount for a level, and the outcome of create_limit_order
(some handle on success, none when the call raises). -/
structure ExchangeEnv where
  orderAmount : ℚ → Side → ℚ
  placeOrder : ℚ → Side → ℚ → Option OrderRec

/-- _execute_grid_order: a non-positive amount is skipped with no call; on
success the level is occupied and the order stored; on a failed call the
level records the failure time for the cooldown. The call list records each
create_limit_order invocation. -/
def executeGridOrder (env : ExchangeEnv) (now price_level : ℚ) (side : Side)
    (st : EngineState) : EngineState × List GridOrderCall :=
  let amount := env.orderAmount price_level side
  if amount ≤ 0 then (st, [])
  else
    match env.placeOrder price_level side amount with
    | some o =>
        ({ st with
            grid_levels := setOccupied st.grid_levels price_level true
            active_orders :=
              insertOrReplace st.active_orders price_level (some o) },
         [{ price := price_level, side := side, amount := amount }])
    | none =>
        ({ st with
            grid_levels := setLastAttempt st.grid_levels price_level now },
         [{ price := price_level, side := side, amount := amount }])

/-- One iteration of the _check_grid_signals placement loop. -/
def gridSignalStep (env : ExchangeEnv) (current_price now : ℚ)
    (acc : EngineState × List GridOrderCall) (kv : ℚ × LevelInfo) :
    EngineState × List GridOrderCall :=
  match gridSignalDecision current_price now kv.1 kv.2 with
  | LevelAction.place s =>
      let r := executeGridOrder env now kv.1 s acc.1
      (r.1, acc.2 ++ r.2)
  | _ => acc

/-- _check_order_status: poll each active order; a closed order is handled
as a fill, a canceled one releases its level, an open one is left alone. -/
def checkOrderStatus (statusOf : ℕ → OrderStatus) (now : ℚ)
    (st : EngineState) : EngineState :=
  st.active_orders.foldl
    (fun acc kv =>
      match kv.2 with
      | none => acc
      | some o =>
          let s := statusOf o.id
          match s.status with
          | OrderLifecycle.closed => handleOrderFilled now kv.1 s acc
          | OrderLifecycle.canceled => releaseGridLevel kv.1 acc
          | OrderLifecycle.opened => acc)
    st

/-- _check_grid_signals: run the placement loop over every grid level
against the tick's current price, then reconcile active-order statuses.
The returned list records the create_limit_order calls of the tick. -/
def checkGridSignals (env : ExchangeEnv) (statusOf : ℕ → OrderStatus)
    (now : ℚ) (st : EngineState) : EngineState × List GridOrderCall :=
  let placed := st.grid_levels.foldl
    (gridSignalStep env st.current_price now) (st, [])
  (checkOrderStatus statusOf now placed.1, placed.2)

/-- One iteration of the _cancel_all_orders loop, which runs inside a
single try block: a cancel_order failure raises, abandoning the rest of the
loop; a success releases the level. The list records the attempted order
ids. -/
def cancelAllOrdersAux (cancelOk : ℕ → Bool) :
    List (ℚ × Option OrderRec) → EngineState → List ℕ →
      EngineState × List ℕ
  | [], st, att => (st, att)
  | (_, none) :: t, st, att => cancelAllOrdersAux cancelOk t st att
  | (pl, some o) :: t, st, att =>
      if cancelOk o.id then
        cancelAllOrdersAux cancelOk t (releaseGridLevel pl st)
          (att ++ [o.id])
      else (st, att ++ [o.id])

/-- _cancel_all_orders over the engine's active-order snapshot. -/
def cancelAllOrders (cancelOk : ℕ → Bool) (st : EngineState) :
    EngineState × List ℕ :=
  cancelAllOrdersAux cancelOk st.active_orders st []

/-- The persisted snapshot written by _save_state. -/
structure SavedState where
  base_price : ℚ
  current_price : ℚ
  grid_size : ℚ
  last_adjustment_time : ℚ
  volatility : ℚ
  total_profit : ℚ
  trade_count : ℕ
  last_save_time : ℚ
deriving DecidableEq, Repr

/-- _save_state: snapshot the persisted fields at the save time. -/
def saveState (now : ℚ) (st : EngineState) : SavedState :=
  { base_price := st.base_price
    current_price := st.current_price
    grid_size := st.grid_size
    last_adjustment_time := st.last_adjustment_time
    volatility := st.volatility
    total_profit := st.total_profit
    trade_count := st.trade_count
    last_save_time := now }

/-- _load_state: with no saved snapshot nothing changes; otherwise the
persisted base price is kept unless a positive configured base price
differs from it by more than 1.0, and grid size, adjustment time, profit
and trade count are restored. -/
def loadState (initial_base_price : ℚ) (saved : Option SavedState)
    (st : EngineState) : EngineState :=
  match saved with
  | none => st
  | some sv =>
      let base := if initial_base_price > 0 then
          if |initial_base_price - sv.base_price| > 1 then
            initial_base_price
          else sv.base_price
        else sv.base_price
      { st with base_price := base
                grid_size := sv.grid_size
                last_adjustment_time := sv.last_adjustment_time
                total_profit := sv.total_profit
                trade_count := sv.trade_count }

/-- Rounding to 4 decimals is strictly monotone across a gap of at least one
rounding quantum. -/
theorem roundTo4_lt_of_quantum_le {a b : ℚ} (h : a + 1 / 10000 ≤ b) :
    roundTo4 a < roundTo4 b := by
  have h1 : a * 10000 + 1 ≤ b * 10000 := by linarith
  have h2 : round (a * 10000) + 1 ≤ round (b * 10000) := by
    have hm : round (a * 10000 + 1) ≤ round (b * 10000) := by
      rw [round_eq, round_eq]
      exact Int.floor_le_floor (by linarith)
    rwa [round_add_one] at hm
  have h3 : ((round (a * 10000) : ℤ) : ℚ) < ((round (b * 10000) : ℤ) : ℚ) := by
    exact_mod_cast Int.lt_of_add_one_le h2
  unfold roundTo4
  linarith

/-- Rounding to 4 decimals overshoots by at most half a quantum. -/
theorem roundTo4_le_add_half_quantum (x : ℚ) : roundTo4 x ≤ x + 1 / 20000 := by
  have h := round_le_add_half (x * 10000)
  unfold roundTo4
  linarith

/-- Rounding to 4 decimals undershoots by less than half a quantum. -/
theorem sub_half_quantum_lt_roundTo4 (x : ℚ) : x - 1 / 20000 < roundTo4 x := by
  have h := sub_half_lt_round (x * 10000)
  unfold roundTo4
  linarith

/-- Assigning a key absent from an association list appends the pair. -/
theorem insertOrReplace_of_forall_ne {α β : Type} [DecidableEq α]
    (l : List (α × β)) (k : α) (v : β) (h : ∀ p ∈ l, p.1 ≠ k) :
    insertOrReplace l k v = l ++ [(k, v)] := by
  induction l with
  | nil => rfl
  | cons hd t ih =>
      have hne : hd.1 ≠ k := h hd (List.mem_cons_self hd t)
      simp only [insertOrReplace, if_neg hne, List.cons_append]
      rw [ih fun p hp => h p (List.mem_cons_of_mem hd hp)]

/-- Folding insert-or-replace over indices with pairwise distinct keys builds
exactly the corresponding association list, in iteration order. -/
theorem foldl_insertOrReplace_eq_append {α β γ : Type} [DecidableEq α]
    (f : γ → α) (g : γ → β) :
    ∀ (is : List γ) (acc : List (α × β)),
      (∀ i ∈ is, ∀ p ∈ acc, p.1 ≠ f i) →
      is.Pairwise (fun a b => f a ≠ f b) →
      is.foldl (fun a i => insertOrReplace a (f i) (g i)) acc
        = acc ++ is.map fun i => (f i, g i)
  | [], acc, _, _ => by simp
  | i :: t, acc, h1, h2 => by
      have hstep : insertOrReplace acc (f i) (g i) = acc ++ [(f i, g i)] :=
        insertOrReplace_of_forall_ne acc (f i) (g i)
          (h1 i (List.mem_cons_self i t))
      have hrest :
          ∀ j ∈ t, ∀ p ∈ acc ++ [(f i, g i)], p.1 ≠ f j := by
        intro j hj p hp
        rcases List.mem_append.1 hp with hp | hp
        · exact h1 j (List.mem_cons_of_mem i hj) p hp
        · have hp' : p = (f i, g i) := List.mem_singleton.1 hp
          subst hp'
          exact (List.pairwise_cons.1 h2).1 j hj
      have ih :=
        foldl_insertOrReplace_eq_append f g t (acc ++ [(f i, g i)]) hrest
          (List.pairwise_cons.1 h2).2
      simp only [List.foldl_cons, hstep, ih, List.map_cons, List.append_assoc,
        List.singleton_append]

/-- Under the quantum spacing hypothesis, level prices are strictly monotone
in the level index. -/
theorem levelPrice_strictMono {base g : ℚ} (hsp : 1 / 10000 ≤ base * (g / 100))
    {i j : ℤ} (hij : i < j) : levelPrice base g i < levelPrice base g j := by
  apply roundTo4_lt_of_quantum_le
  have hone : (1 : ℚ) ≤ (j : ℚ) - (i : ℚ) := by
    have h1 : (i : ℚ) + 1 ≤ (j : ℚ) := by exact_mod_cast Int.lt_iff_add_one_le.1 hij
    linarith
  have hpos : (0 : ℚ) < base * (g / 100) := lt_of_lt_of_le (by norm_num) hsp
  nlinarith [mul_le_mul hsp hone (by norm_num) (le_of_lt hpos)]

/-- Under the quantum spacing hypothesis, every negative-index level price is
strictly below the base price. -/
theorem levelPrice_lt_base {base g : ℚ} (hsp : 1 / 10000 ≤ base * (g / 100))
    {i : ℤ} (hi : i < 0) : levelPrice base g i < base := by
  have hi1 : (i : ℚ) ≤ -1 := by
    have h1 : i ≤ -1 := by omega
    exact_mod_cast h1
  have hpos : (0 : ℚ) < base * (g / 100) := lt_of_lt_of_le (by norm_num) hsp
  have hb : base * (1 + (i : ℚ) * (g / 100)) ≤ base - base * (g / 100) := by
    nlinarith [mul_le_mul_of_nonneg_left hi1 (le_of_lt hpos)]
  have := roundTo4_le_add_half_quantum (base * (1 + (i : ℚ) * (g / 100)))
  unfold levelPrice
  linarith

/-- Under the quantum spacing hypothesis, every positive-index level price is
strictly above the base price. -/
theorem base_lt_levelPrice {base g : ℚ} (hsp : 1 / 10000 ≤ base * (g / 100))
    {i : ℤ} (hi : 0 < i) : base < levelPrice base g i := by
  have hi1 : (1 : ℚ) ≤ (i : ℚ) := by
    have h1 : 1 ≤ i := by omega
    exact_mod_cast h1
  have hpos : (0 : ℚ) < base * (g / 100) := lt_of_lt_of_le (by norm_num) hsp
  have hb : base + base * (g / 100) ≤ base * (1 + (i : ℚ) * (g / 100)) := by
    nlinarith [mul_le_mul_of_nonneg_left hi1 (le_of_lt hpos)]
  have := sub_half_quantum_lt_roundTo4 (base * (1 + (i : ℚ) * (g / 100)))
  unfold levelPrice
  linarith

/-- Under the quantum spacing hypothesis every generated key is distinct, so
the dict build is exactly the list of (price, level) pairs in index order. -/
theorem initializeGridLevels_eq_map {base g : ℚ}
    (hsp : 1 / 10000 ≤ base * (g / 100)) :
    initializeGridLevels base g
      = gridIndices.map fun i => (levelPrice base g i, newLevelInfo i) := by
  unfold initializeGridLevels
  have hpw : gridIndices.Pairwise
      (fun a b => levelPrice base g a ≠ levelPrice base g b) := by
    have hlt : gridIndices.Pairwise (· < ·) := by decide
    exact hlt.imp fun h => ne_of_lt (levelPrice_strictMono hsp h)
  have := foldl_insertOrReplace_eq_append (levelPrice base g) newLevelInfo
    gridIndices [] (by intro i _ p hp; cases hp) hpw
  simpa using this

/-- C2 (amended): for basePrice > 0 and gridSizePercent in (0,10] whose grid
spacing basePrice times gridSizePercent/100 is at least one rounding quantum
1/10000, _initialize_grid_levels yields exactly the 10 levels keyed by
round(basePrice*(1 + i*gridSizePercent/100), 4) for i in -5..-1, 1..5, none
at index 0, with strictly increasing prices across generated indices, every
buy level strictly below basePrice and every sell level strictly above it.
Without the spacing hypothesis distinct indices can round to the same key
and the table collapses (see the counterexample). -/
theorem C2_grid_level_table (base g : ℚ) (hb : 0 < base) (hg : 0 < g)
    (hg10 : g ≤ 10) (hsp : 1 / 10000 ≤ base * (g / 100)) :
    initializeGridLevels base g
        = (gridIndices.map fun i => (levelPrice base g i, newLevelInfo i))
      ∧ (initializeGridLevels base g).length = 10
      ∧ ((initializeGridLevels base g).map Prod.fst).Pairwise (· < ·)
      ∧ (∀ p ∈ initializeGridLevels base g, p.2.level ≠ 0)
      ∧ (∀ p ∈ initializeGridLevels base g,
          (p.2.side = Side.buy ↔ p.2.level < 0))
      ∧ (∀ p ∈ initializeGridLevels base g,
          p.2.side = Side.buy → p.1 < base)
      ∧ (∀ p ∈ initializeGridLevels base g,
          p.2.side = Side.sell → base < p.1) := by
  have hmap := @initializeGridLevels_eq_map base g hsp
  have hside : ∀ i : ℤ, (newLevelInfo i).side = Side.buy ↔ i < 0 := by
    intro i
    by_cases h : i < 0 <;> simp [newLevelInfo, h]
  refine ⟨hmap, ?_, ?_, ?_, ?_, ?_, ?_⟩
  · rw [hmap]; rfl
  · rw [hmap, List.map_map]
    have hlt : gridIndices.Pairwise (· < ·) := by decide
    rw [List.pairwise_map]
    exact hlt.imp fun h => levelPrice_strictMono hsp h
  · rw [hmap]
    intro p hp
    rcases List.mem_map.1 hp with ⟨i, hi, rfl⟩
    have hne : ∀ j ∈ gridIndices, j ≠ 0 := by decide
    simpa [newLevelInfo] using hne i hi
  · rw [hmap]
    intro p hp
    rcases List.mem_map.1 hp with ⟨i, hi, rfl⟩
    exact hside i
  · rw [hmap]
    intro p hp hbuy
    rcases List.mem_map.1 hp with ⟨i, hi, rfl⟩
    exact levelPrice_lt_base hsp ((hside i).1 hbuy)
  · rw [hmap]
    intro p hp hsell
    rcases List.mem_map.1 hp with ⟨i, hi, rfl⟩
    have hnotbuy : ¬ i < 0 := by
      intro hneg
      have : (newLevelInfo i).side = Side.buy := (hside i).2 hneg
      rw [this] at hsell
      cases hsell
    have hne : ∀ j ∈ gridIndices, j ≠ 0 := by decide
    have : 0 < i := lt_of_le_of_ne (not_lt.1 hnotbuy) (Ne.symm (hne i hi))
    exact base_lt_levelPrice hsp this

/-- C2 counterexample: basePrice = 1/10000 > 0 with gridSizePercent = 1 in
(0,10] is a valid input on which the claim fails: all ten computed prices
round to the same 4-decimal key, so the built table has 1 level, not 10. -/
theorem C2_counterexample :
    (0 : ℚ) < 1 / 10000 ∧ (0 : ℚ) < 1 ∧ (1 : ℚ) ≤ 10
      ∧ (initializeGridLevels (1 / 10000) 1).length ≠ 10 := by
  refine ⟨by norm_num, by norm_num, by norm_num, ?_⟩
  norm_num [initializeGridLevels, gridIndices, insertOrReplace, levelPrice,
    roundTo4, round_eq, newLevelInfo]

/-- Witness for C2: basePrice 100000 with grid size 2 percent satisfies the
spacing hypothesis and builds exactly 10 levels. -/
theorem C2_witness :
    (0 : ℚ) < 100000 ∧ (0 : ℚ) < 2 ∧ (2 : ℚ) ≤ 10
    ∧ (1 : ℚ) / 10000 ≤ 100000 * (2 / 100)
    ∧ (initializeGridLevels 100000 2).length = 10 :=
  ⟨by norm_num, by norm_num, by norm_num, by norm_num,
   (C2_grid_level_table 100000 2 (by norm_num) (by norm_num) (by norm_num)
      (by norm_num)).2.1⟩

/-- One portfolio-metric update never lowers the peak value. -/
theorem updatePortfolioMetrics_peak_le (now value : ℚ) (s : RiskState) :
    s.peak_portfolio_value
      ≤ (updatePortfolioMetrics now value s).peak_portfolio_value := by
  unfold updatePortfolioMetrics
  split_ifs with h1 h2 h3 <;> simp_all <;> linarith

/-- One portfolio-metric update keeps the drawdown nonpositive. -/
theorem updatePortfolioMetrics_dd_nonpos (now value : ℚ) (s : RiskState)
    (h : s.current_drawdown ≤ 0) :
    (updatePortfolioMetrics now value s).current_drawdown ≤ 0 := by
  have hkey : ∀ peak : ℚ, value ≤ peak →
      (if peak > 0 then (value - peak) / peak else s.current_drawdown) ≤ 0 := by
    intro peak hv
    split_ifs with hp
    · exact div_nonpos_iff.2 (Or.inr ⟨by linarith, le_of_lt hp⟩)
    · exact h
  by_cases h1 : value > s.peak_portfolio_value <;>
    by_cases h2 : now - s.last_daily_reset > 86400 <;>
      simp only [updatePortfolioMetrics, h1, h2, if_true, if_false,
        if_pos, if_neg, not_false_iff]
  · exact hkey value le_rfl
  · exact hkey value le_rfl
  · exact hkey s.peak_portfolio_value (le_of_not_lt h1)
  · exact hkey s.peak_portfolio_value (le_of_not_lt h1)

/-- C4 (amended): across every sequence of portfolio-metric updates the
peak portfolio value never decreases and the drawdown stays at most 0. The
claim's further clause that the drawdown only becomes more negative unless
a new peak is reached is refuted by the counterexample: a partial recovery
below the peak moves the drawdown toward zero with the peak unchanged. -/
theorem C4_peak_monotone_drawdown_nonpos (updates : List (ℚ × ℚ))
    (s : RiskState) (h : s.current_drawdown ≤ 0) :
    s.peak_portfolio_value
        ≤ (runPortfolioUpdates updates s).peak_portfolio_value
      ∧ (runPortfolioUpdates updates s).current_drawdown ≤ 0 := by
  induction updates generalizing s with
  | nil => exact ⟨le_rfl, h⟩
  | cons u t ih =>
      have hstep := updatePortfolioMetrics_peak_le u.1 u.2 s
      have hdd := updatePortfolioMetrics_dd_nonpos u.1 u.2 s h
      have hrec := ih (updatePortfolioMetrics u.1 u.2 s) hdd
      exact ⟨le_trans hstep hrec.1, by simpa [runPortfolioUpdates] using hrec.2⟩

/-- Witness for C4: starting from a freshly initialized risk state with
peak 100, two updates keep the peak at least 100 and the drawdown at most
zero. -/
theorem C4_witness :
    ((⟨false, 100, 0, 100, 0, 0, 0, 0⟩ : RiskState).current_drawdown ≤ 0)
    ∧ ((⟨false, 100, 0, 100, 0, 0, 0, 0⟩ : RiskState).peak_portfolio_value
        ≤ (runPortfolioUpdates [(1, 90), (2, 95)]
            ⟨false, 100, 0, 100, 0, 0, 0, 0⟩).peak_portfolio_value)
    ∧ (runPortfolioUpdates [(1, 90), (2, 95)]
        ⟨false, 100, 0, 100, 0, 0, 0, 0⟩).current_drawdown ≤ 0 :=
  ⟨by norm_num,
   (C4_peak_monotone_drawdown_nonpos [(1, 90), (2, 95)]
      ⟨false, 100, 0, 100, 0, 0, 0, 0⟩ (by norm_num)).1,
   (C4_peak_monotone_drawdown_nonpos [(1, 90), (2, 95)]
      ⟨false, 100, 0, 100, 0, 0, 0, 0⟩ (by norm_num)).2⟩

/-- C4 counterexample: with peak 100, the value dropping to 90 then
recovering to 95 moves the drawdown from -10 percent to -5 percent - toward
zero - while the peak is unchanged, so no new peak was reached. -/
theorem C4_counterexample :
    (updatePortfolioMetrics 1 90
        ⟨false, 100, 0, 100, 0, 0, 0, 0⟩).current_drawdown = -1/10
    ∧ (updatePortfolioMetrics 2 95 (updatePortfolioMetrics 1 90
        ⟨false, 100, 0, 100, 0, 0, 0, 0⟩)).current_drawdown = -1/20
    ∧ (updatePortfolioMetrics 2 95 (updatePortfolioMetrics 1 90
          ⟨false, 100, 0, 100, 0, 0, 0, 0⟩)).peak_portfolio_value
        = (updatePortfolioMetrics 1 90
            ⟨false, 100, 0, 100, 0, 0, 0, 0⟩).peak_portfolio_value
    ∧ (-1/10 : ℚ) < -1/20 := by
  norm_num [updatePortfolioMetrics]

/-- When the stop flag is already set, one emergency-loop iteration leaves
the risk state untouched. -/
theorem emergencyStep_fst_of_flag (now : ℚ)
    (acc : RiskState × List RiskAlert) (c : Bool × AlertType)
    (h : acc.1.emergency_stop_triggered = true) :
    (emergencyStep now acc c).1 = acc.1 := by
  unfold emergencyStep
  split_ifs with hc
  · simp [h]
  · rfl

/-- Folding the emergency loop from a flagged state never changes the risk
state. -/
theorem emergencyFold_fst_of_flag (now : ℚ) :
    ∀ (l : List (Bool × AlertType)) (acc : RiskState × List RiskAlert),
      acc.1.emergency_stop_triggered = true →
      (l.foldl (emergencyStep now) acc).1 = acc.1
  | [], _, _ => rfl
  | c :: t, acc, h => by
      have h1 := emergencyStep_fst_of_flag now acc c h
      have h2 := emergencyFold_fst_of_flag now t (emergencyStep now acc c)
        (by rw [h1]; exact h)
      rw [List.foldl_cons, h2, h1]

/-- A portfolio-metric update touches neither the stop flag nor the trigger
counter. -/
theorem updatePortfolioMetrics_flag (now value : ℚ) (s : RiskState) :
    (updatePortfolioMetrics now value s).emergency_stop_triggered
        = s.emergency_stop_triggered
    ∧ (updatePortfolioMetrics now value s).trigger_count
        = s.trigger_count := by
  unfold updatePortfolioMetrics
  split_ifs <;> exact ⟨rfl, rfl⟩

/-- The position-limit check touches neither the stop flag nor the trigger
counter. -/
theorem checkPositionLimits_flag (cfg : RiskSettings) (now : ℚ)
    (snap : PositionSnapshot) (s : RiskState) :
    (checkPositionLimits cfg now snap s).1.emergency_stop_triggered
        = s.emergency_stop_triggered
    ∧ (checkPositionLimits cfg now snap s).1.trigger_count
        = s.trigger_count :=
  ⟨rfl, rfl⟩

/-- One full risk-evaluation cycle started with the stop flag set keeps the
flag set and does not invoke the trigger action. -/
theorem checkAllRisks_flag_persist (cfg : RiskSettings)
    (inp : RiskCycleInput) (s : RiskState)
    (h : s.emergency_stop_triggered = true) :
    (checkAllRisks cfg inp s).1.emergency_stop_triggered = true
    ∧ (checkAllRisks cfg inp s).1.trigger_count = s.trigger_count := by
  have h1 := updatePortfolioMetrics_flag inp.now inp.accountValue s
  have h2 := checkPositionLimits_flag cfg inp.now inp.snapshot
    (updatePortfolioMetrics inp.now inp.accountValue s)
  have hflag : (checkPositionLimits cfg inp.now inp.snapshot
      (updatePortfolioMetrics inp.now inp.accountValue
        s)).1.emergency_stop_triggered = true := by
    rw [h2.1, h1.1, h]
  have key : (checkAllRisks cfg inp s).1
      = (checkEmergencyConditions cfg inp.now
          (checkPositionLimits cfg inp.now inp.snapshot
            (updatePortfolioMetrics inp.now inp.accountValue s)).1).1 := rfl
  have h3 := emergencyFold_fst_of_flag inp.now
    (emergencyConditions cfg
      (checkPositionLimits cfg inp.now inp.snapshot
        (updatePortfolioMetrics inp.now inp.accountValue s)).1)
    ((checkPositionLimits cfg inp.now inp.snapshot
        (updatePortfolioMetrics inp.now inp.accountValue s)).1, [])
    hflag
  have key2 : (checkEmergencyConditions cfg inp.now
      (checkPositionLimits cfg inp.now inp.snapshot
        (updatePortfolioMetrics inp.now inp.accountValue s)).1).1
      = (checkPositionLimits cfg inp.now inp.snapshot
          (updatePortfolioMetrics inp.now inp.accountValue s)).1 := h3
  rw [key, key2]
  exact ⟨hflag, by rw [h2.2, h1.2]⟩

/-- An already-set stop flag survives any sequence of risk-evaluation
cycles with the trigger count unchanged. -/
theorem runRiskCycles_flag_persist (cfg : RiskSettings) :
    ∀ (inps : List RiskCycleInput) (s : RiskState),
      s.emergency_stop_triggered = true →
      (runRiskCycles cfg inps s).emergency_stop_triggered = true
      ∧ (runRiskCycles cfg inps s).trigger_count = s.trigger_count
  | [], _, h => ⟨h, rfl⟩
  | i :: t, s, h => by
      have h1 := checkAllRisks_flag_persist cfg i s h
      have h2 := runRiskCycles_flag_persist cfg t (checkAllRisks cfg i s).1
        h1.1
      refine ⟨?_, ?_⟩
      · show (runRiskCycles cfg t (checkAllRisks cfg i s).1).emergency_stop_triggered = true
        exact h2.1
      · show (runRiskCycles cfg t (checkAllRisks cfg i s).1).trigger_count = s.trigger_count
        rw [h2.2, h1.2]

/-- From an unflagged state, one emergency check sets the flag exactly when
some emergency condition holds and invokes the trigger action exactly once
even when several conditions hold simultaneously. -/
theorem checkEmergencyConditions_of_not_flag (cfg : RiskSettings) (now : ℚ)
    (s : RiskState) (h : s.emergency_stop_triggered = false) :
    (checkEmergencyConditions cfg now s).1.trigger_count
        = s.trigger_count
          + (if s.current_drawdown < cfg.max_drawdown * 2
                ∨ s.daily_pnl < cfg.daily_loss_limit * 2
                ∨ s.current_position_ratio > 95/100
             then 1 else 0)
    ∧ (checkEmergencyConditions cfg now s).1.emergency_stop_triggered
        = decide (s.current_drawdown < cfg.max_drawdown * 2
            ∨ s.daily_pnl < cfg.daily_loss_limit * 2
            ∨ s.current_position_ratio > 95/100) := by
  unfold checkEmergencyConditions emergencyConditions
  by_cases h1 : s.current_drawdown < cfg.max_drawdown * 2 <;>
    by_cases h2 : s.daily_pnl < cfg.daily_loss_limit * 2 <;>
      by_cases h3 : s.current_position_ratio > 95/100 <;>
        simp [emergencyStep, triggerEmergencyStop, h1, h2, h3, h]

/-- C5: the emergency-stop flag, once set, stays set across every sequence
of risk-evaluation cycles with no further trigger-action invocation until
reset_emergency_stop clears it; while the flag is set a re-occurring
emergency condition leaves the risk state untouched; and from an unflagged
state the cancel-all-and-notify trigger action runs exactly once even when
several emergency conditions hold in the same cycle. -/
theorem C5_emergency_stop_sticky (cfg : RiskSettings) :
    (∀ (inps : List RiskCycleInput) (s : RiskState),
        s.emergency_stop_triggered = true →
        (runRiskCycles cfg inps s).emergency_stop_triggered = true
        ∧ (runRiskCycles cfg inps s).trigger_count = s.trigger_count)
    ∧ (∀ (now : ℚ) (s : RiskState), s.emergency_stop_triggered = true →
        (checkEmergencyConditions cfg now s).1 = s)
    ∧ (∀ (now : ℚ) (s : RiskState), s.emergency_stop_triggered = false →
        (checkEmergencyConditions cfg now s).1.trigger_count
          = s.trigger_count
            + (if s.current_drawdown < cfg.max_drawdown * 2
                  ∨ s.daily_pnl < cfg.daily_loss_limit * 2
                  ∨ s.current_position_ratio > 95/100
               then 1 else 0)
        ∧ (checkEmergencyConditions cfg now s).1.emergency_stop_triggered
          = decide (s.current_drawdown < cfg.max_drawdown * 2
              ∨ s.daily_pnl < cfg.daily_loss_limit * 2
              ∨ s.current_position_ratio > 95/100))
    ∧ (∀ s : RiskState,
        (resetEmergencyStop s).emergency_stop_triggered = false) := by
  refine ⟨fun inps s h => runRiskCycles_flag_persist cfg inps s h,
    fun now s h => emergencyFold_fst_of_flag now
      (emergencyConditions cfg s) (s, []) h,
    fun now s h => checkEmergencyConditions_of_not_flag cfg now s h,
    fun s => rfl⟩

/-- Witness for C5: with the default risk settings, a flagged state with
trigger count 1 survives one concrete cycle unchanged in flag and count,
and an unflagged state in extreme drawdown triggers exactly once. -/
theorem C5_witness :
    ((⟨true, 100, -1/2, 100, 0, 0, 0, 1⟩ : RiskState).emergency_stop_triggered
        = true)
    ∧ (runRiskCycles defaultRiskSettings
        [⟨1, 50, PositionSnapshot.futures 0 50⟩]
        ⟨true, 100, -1/2, 100, 0, 0, 0, 1⟩).emergency_stop_triggered = true
    ∧ (runRiskCycles defaultRiskSettings
        [⟨1, 50, PositionSnapshot.futures 0 50⟩]
        ⟨true, 100, -1/2, 100, 0, 0, 0, 1⟩).trigger_count = 1
    ∧ (checkEmergencyConditions defaultRiskSettings 1
        ⟨false, 100, -1/2, 100, -1/2, 0, 0, 0⟩).1.trigger_count = 1 := by
  have h1 := (C5_emergency_stop_sticky defaultRiskSettings).1
    [⟨1, 50, PositionSnapshot.futures 0 50⟩]
    ⟨true, 100, -1/2, 100, 0, 0, 0, 1⟩ rfl
  have h2 := ((C5_emergency_stop_sticky defaultRiskSettings).2.2.1 1
    ⟨false, 100, -1/2, 100, -1/2, 0, 0, 0⟩ rfl).1
  refine ⟨rfl, h1.1, h1.2, ?_⟩
  rw [h2]
  norm_num [defaultRiskSettings]

/-- C6: with a negative configured daily-loss limit L, the daily check
produces an alert exactly when dailyPnl < L, always exactly one alert of
type DAILY_LOSS_LIMIT_EXCEEDED, with severity critical exactly when
dailyPnl < 1.5 times L and high otherwise. -/
theorem C6_daily_loss_alert (cfg : RiskSettings) (now : ℚ) (s : RiskState)
    (hL : cfg.daily_loss_limit < 0) :
    ((checkDailyLimits cfg now s).length = 1
        ↔ s.daily_pnl < cfg.daily_loss_limit)
    ∧ (checkDailyLimits cfg now s = []
        ↔ ¬ s.daily_pnl < cfg.daily_loss_limit)
    ∧ (∀ a ∈ checkDailyLimits cfg now s,
        a.alert_type = AlertType.dailyLossLimitExceeded
        ∧ (a.severity = Severity.critical
            ↔ s.daily_pnl < cfg.daily_loss_limit * (3/2))
        ∧ (a.severity = Severity.high
            ↔ ¬ s.daily_pnl < cfg.daily_loss_limit * (3/2))) := by
  unfold checkDailyLimits
  by_cases hp : s.daily_pnl < cfg.daily_loss_limit
  · refine ⟨by simp [hp], by simp [hp], ?_⟩
    intro a ha
    rw [if_pos hp, List.mem_singleton] at ha
    subst ha
    by_cases hc : s.daily_pnl < cfg.daily_loss_limit * (3/2) <;>
      simp [hc]
  · exact ⟨by simp [hp], by simp [hp], by simp [hp]⟩

/-- Witness for C6: with the default settings (limit -0.05 < 0) and daily
PnL -0.06, exactly one alert is produced, of the daily-loss type, with
severity high. -/
theorem C6_witness :
    defaultRiskSettings.daily_loss_limit < 0
    ∧ (checkDailyLimits defaultRiskSettings 7
        ⟨false, 100, 0, 100, -3/50, 0, 0, 0⟩).length = 1
    ∧ ∀ a ∈ checkDailyLimits defaultRiskSettings 7
        ⟨false, 100, 0, 100, -3/50, 0, 0, 0⟩,
        a.alert_type = AlertType.dailyLossLimitExceeded
        ∧ a.severity = Severity.high := by
  have hc := C6_daily_loss_alert defaultRiskSettings 7
    ⟨false, 100, 0, 100, -3/50, 0, 0, 0⟩ (by norm_num [defaultRiskSettings])
  refine ⟨by norm_num [defaultRiskSettings],
    hc.1.2 (by norm_num [defaultRiskSettings]), ?_⟩
  intro a ha
  have h3 := hc.2.2 a ha
  exact ⟨h3.1, h3.2.2.2 (by norm_num [defaultRiskSettings])⟩

/-- C10: when the computed total balance is zero the position-limit check
stores the safe-divide default 0 as the position ratio and evaluates both
threshold comparisons against 0 instead of failing. -/
theorem C10_zero_total_balance (cfg : RiskSettings) (now : ℚ)
    (snap : PositionSnapshot) (s : RiskState)
    (h : totalBalance snap = 0) :
    safe_divide (positionValue snap) (totalBalance snap) 0 = 0
    ∧ (checkPositionLimits cfg now snap s).1.current_position_ratio = 0
    ∧ (checkPositionLimits cfg now snap s).2
        = (if (0 : ℚ) > cfg.max_position_ratio then
            [{ alert_type := AlertType.positionLimitExceeded,
               severity := Severity.high, current_value := 0,
               threshold := cfg.max_position_ratio, timestamp := now,
               action_required := true }]
          else [])
        ++ (if (0 : ℚ) < cfg.min_position_ratio then
            [{ alert_type := AlertType.positionBelowMinimum,
               severity := Severity.medium, current_value := 0,
               threshold := cfg.min_position_ratio, timestamp := now,
               action_required := false }]
          else []) := by
  have hs : safe_divide (positionValue snap) (totalBalance snap) 0 = 0 := by
    rw [h]; rfl
  refine ⟨hs, ?_, ?_⟩
  · show safe_divide (positionValue snap) (totalBalance snap) 0 = 0
    exact hs
  · show (if safe_divide (positionValue snap) (totalBalance snap) 0
            > cfg.max_position_ratio then _ else _) ++ _ = _
    rw [hs]

/-- Witness for C10: a futures snapshot with nonzero notional but zero
total USDT balance yields ratio 0 and, under the default thresholds, only
the below-minimum alert. -/
theorem C10_witness :
    totalBalance (PositionSnapshot.futures 5 0) = 0
    ∧ (checkPositionLimits defaultRiskSettings 3
        (PositionSnapshot.futures 5 0)
        ⟨false, 100, 0, 100, 0, 0, 0, 0⟩).1.current_position_ratio = 0
    ∧ (checkPositionLimits defaultRiskSettings 3
        (PositionSnapshot.futures 5 0)
        ⟨false, 100, 0, 100, 0, 0, 0, 0⟩).2
        = [{ alert_type := AlertType.positionBelowMinimum,
             severity := Severity.medium, current_value := 0,
             threshold := defaultRiskSettings.min_position_ratio,
             timestamp := 3, action_required := false }] := by
  have hc := C10_zero_total_balance defaultRiskSettings 3
    (PositionSnapshot.futures 5 0) ⟨false, 100, 0, 100, 0, 0, 0, 0⟩ rfl
  refine ⟨rfl, hc.2.1, ?_⟩
  rw [hc.2.2]
  norm_num [defaultRiskSettings]

/-- C7: handling a fill whose grid level carries side sell adds exactly
(fillPrice - basePrice) * filledAmount to total_profit, and a buy-side fill
adds exactly 0; either way the trade count rises by one and the recorded
trade carries the same profit. -/
theorem C7_fill_profit (now price_level : ℚ) (ord : OrderStatus)
    (st : EngineState) (info : LevelInfo)
    (h : lookupKey st.grid_levels price_level = some info) :
    (handleOrderFilled now price_level ord st).total_profit
        = st.total_profit
          + (if info.side = Side.sell then
              (ord.price - st.base_price) * ord.filled
            else 0)
    ∧ (handleOrderFilled now price_level ord st).trade_count
        = st.trade_count + 1
    ∧ (handleOrderFilled now price_level ord st).trades
        = st.trades
          ++ [{ timestamp := now, side := info.side, price := ord.price,
                amount := ord.filled, total := ord.price * ord.filled,
                profit := if info.side = Side.sell then
                    (ord.price - st.base_price) * ord.filled
                  else 0,
                order_id := ord.id, grid_level := info.level }] := by
  unfold handleOrderFilled
  rw [h]
  exact ⟨rfl, rfl, rfl⟩

/-- Witness for C7: a sell fill at 101000 with base price 100000 and
amount 0.01 records profit 10. -/
theorem C7_witness :
    lookupKey
        (⟨100000, 100500, 1, 0, 0,
          [(101000, ⟨Side.sell, 1, true, 0⟩)],
          [(101000, some ⟨4⟩)], 0, 0, 0, 0, []⟩ :
          EngineState).grid_levels 101000
      = some ⟨Side.sell, 1, true, 0⟩
    ∧ (handleOrderFilled 9 101000 ⟨OrderLifecycle.closed, 4, 101000, 1/100⟩
        (⟨100000, 100500, 1, 0, 0,
          [(101000, ⟨Side.sell, 1, true, 0⟩)],
          [(101000, some ⟨4⟩)], 0, 0, 0, 0, []⟩ :
          EngineState)).total_profit = 10 := by
  have hl : lookupKey
      (⟨100000, 100500, 1, 0, 0,
        [(101000, ⟨Side.sell, 1, true, 0⟩)],
        [(101000, some ⟨4⟩)], 0, 0, 0, 0, []⟩ :
        EngineState).grid_levels 101000
      = some ⟨Side.sell, 1, true, 0⟩ := by
    simp [lookupKey]
  have hc := (C7_fill_profit 9 101000
    ⟨OrderLifecycle.closed, 4, 101000, 1/100⟩
    (⟨100000, 100500, 1, 0, 0,
      [(101000, ⟨Side.sell, 1, true, 0⟩)],
      [(101000, some ⟨4⟩)], 0, 0, 0, 0, []⟩ : EngineState)
    ⟨Side.sell, 1, true, 0⟩ hl).1
  refine ⟨hl, ?_⟩
  rw [hc]
  norm_num

/-- C9: saving the engine state and reloading it with no configured
base-price override (initial_base_price = 0) restores exactly the saved
base price, grid size, total profit and trade count. -/
theorem C9_save_load_roundtrip (now : ℚ) (st st2 : EngineState) :
    (loadState 0 (some (saveState now st)) st2).base_price = st.base_price
    ∧ (loadState 0 (some (saveState now st)) st2).grid_size = st.grid_size
    ∧ (loadState 0 (some (saveState now st)) st2).total_profit
        = st.total_profit
    ∧ (loadState 0 (some (saveState now st)) st2).trade_count
        = st.trade_count := by
  unfold loadState saveState
  norm_num

/-- C8: for an unoccupied level past its cooldown, the tick places a buy
exactly when the level price is below currentPrice times 0.999 and a sell
exactly when it is above currentPrice times 1.001, and a level whose guard
fails leaves the tick's accumulated state unchanged. -/
theorem C8_directional_guard (cp now pl : ℚ) (info : LevelInfo)
    (hocc : info.occupied = false)
    (hcd : failedOrderCooldown ≤ now - info.last_attempt) :
    (gridSignalDecision cp now pl info = LevelAction.place Side.buy
        ↔ info.side = Side.buy ∧ pl < cp * (999/1000))
    ∧ (gridSignalDecision cp now pl info = LevelAction.place Side.sell
        ↔ info.side = Side.sell ∧ cp * (1001/1000) < pl)
    ∧ (gridSignalDecision cp now pl info = LevelAction.skipGuard →
        ∀ (env : ExchangeEnv) (acc : EngineState × List GridOrderCall),
          gridSignalStep env cp now acc (pl, info) = acc) := by
  have hncd : ¬ now - info.last_attempt < failedOrderCooldown :=
    not_lt.2 hcd
  refine ⟨?_, ?_, ?_⟩
  · cases hs : info.side <;> by_cases hg : pl < cp * (999/1000) <;>
      by_cases hg2 : cp * (1001/1000) < pl <;>
        simp [gridSignalDecision, hocc, hncd, hs, hg, hg2]
  · cases hs : info.side <;> by_cases hg : pl < cp * (999/1000) <;>
      by_cases hg2 : cp * (1001/1000) < pl <;>
        simp [gridSignalDecision, hocc, hncd, hs, hg, hg2]
  · intro hsg env acc
    simp [gridSignalStep, hsg]

/-- Witness for C8: in the spec scenario basePrice 100000, grid size 2
percent and currentPrice 100500, level -1 prices at 98000 and level +1 at
102000; the 98000 buy level passes its guard (98000 < 100399.5) and the
102000 sell level passes its guard (102000 > 100600.5). -/
theorem C8_witness :
    ((⟨Side.buy, -1, false, 0⟩ : LevelInfo).occupied = false)
    ∧ failedOrderCooldown
        ≤ (300 : ℚ) - (⟨Side.buy, -1, false, 0⟩ : LevelInfo).last_attempt
    ∧ gridSignalDecision 100500 300 98000 ⟨Side.buy, -1, false, 0⟩
        = LevelAction.place Side.buy
    ∧ gridSignalDecision 100500 300 102000 ⟨Side.sell, 1, false, 0⟩
        = LevelAction.place Side.sell
    ∧ levelPrice 100000 2 (-1) = 98000
    ∧ levelPrice 100000 2 1 = 102000 := by
  have h1 := (C8_directional_guard 100500 300 98000
    ⟨Side.buy, -1, false, 0⟩ rfl (by norm_num [failedOrderCooldown])).1
  have h2 := (C8_directional_guard 100500 300 102000
    ⟨Side.sell, 1, false, 0⟩ rfl (by norm_num [failedOrderCooldown])).2.1
  refine ⟨rfl, by norm_num [failedOrderCooldown],
    h1.mpr ⟨rfl, by norm_num⟩, h2.mpr ⟨rfl, by norm_num⟩, ?_, ?_⟩
  · norm_num [levelPrice, roundTo4, round_eq]
  · norm_num [levelPrice, roundTo4, round_eq]

/-- C1: the code contradicts the claim. The signal-evaluation step takes no
emergency-stop input at all: with the risk manager's stop flag set, a tick
over one eligible unoccupied buy level still calls create_limit_order once
and flips the level to occupied. -/
theorem C1_code_bug_eval :
    isEmergencyStopActive ⟨true, 100, 0, 100, 0, 0, 0, 1⟩ = true
    ∧ (checkGridSignals ⟨fun _ _ => 1, fun _ _ _ => some ⟨11⟩⟩
        (fun _ => ⟨OrderLifecycle.opened, 0, 0, 0⟩) 300
        ⟨100000, 100500, 2, 0, 0, [(98000, ⟨Side.buy, -1, false, 0⟩)],
         [], 0, 0, 0, 0, []⟩).2
      = [⟨98000, Side.buy, 1⟩]
    ∧ lookupKey ((checkGridSignals ⟨fun _ _ => 1, fun _ _ _ => some ⟨11⟩⟩
        (fun _ => ⟨OrderLifecycle.opened, 0, 0, 0⟩) 300
        ⟨100000, 100500, 2, 0, 0, [(98000, ⟨Side.buy, -1, false, 0⟩)],
         [], 0, 0, 0, 0, []⟩).1).grid_levels 98000
      = some ⟨Side.buy, -1, true, 0⟩ := by
  refine ⟨rfl, ?_, ?_⟩ <;>
    norm_num [checkGridSignals, gridSignalStep, gridSignalDecision,
      executeGridOrder, checkOrderStatus, setOccupied, insertOrReplace,
      lookupKey, failedOrderCooldown]

/-- C3: the code contradicts the claim. The cancel loop of
_cancel_all_orders runs inside one try block, so the first failing cancel
abandons the loop: with two active orders and every cancel failing, only
the first order is attempted and no grid level is released - the engine
state is returned entirely unchanged. -/
theorem C3_code_bug_eval :
    (cancelAllOrders (fun _ => false)
        ⟨100000, 100500, 2, 0, 0,
         [(98000, ⟨Side.buy, -1, true, 0⟩),
          (102000, ⟨Side.sell, 1, true, 0⟩)],
         [(98000, some ⟨1⟩), (102000, some ⟨2⟩)],
         0, 0, 0, 0, []⟩).2
      = [1]
    ∧ (cancelAllOrders (fun _ => false)
        ⟨100000, 100500, 2, 0, 0,
         [(98000, ⟨Side.buy, -1, true, 0⟩),
          (102000, ⟨Side.sell, 1, true, 0⟩)],
         [(98000, some ⟨1⟩), (102000, some ⟨2⟩)],
         0, 0, 0, 0, []⟩).1
      = ⟨100000, 100500, 2, 0, 0,
         [(98000, ⟨Side.buy, -1, true, 0⟩),
          (102000, ⟨Side.sell, 1, true, 0⟩)],
         [(98000, some ⟨1⟩), (102000, some ⟨2⟩)],
         0, 0, 0, 0, []⟩ := by
  constructor <;> rfl

end GridTrading
